import Mathlib

/-!
Bound tree of `slang` (`include/BoundNodes.h`)

A shallow embedding of the bound-node class hierarchy.  Every C++ class of the
header becomes one case of a sum type that carries the base-class sub-object
(`kind`, `syntax`, `type`) next to the fields the class adds; every C++
constructor becomes a function that fills the sub-object exactly as the
constructor's initialiser list does.  A pointer is an `Option` (`none` is
`nullptr`); an `ArrayRef` of pointers is a `List` of `Option`s.  Two constructors
read through a pointer argument without a check (`symbol->type`,
`subroutine->returnType`). With a null argument that read is undefined
behaviour; their result is an `Option`, `some node` where C++ defines the
outcome and `none` where it does not. `none` says nothing about what a build
does there: neither that the call fails nor that no node exists.

The field `syntax` of the source is called `syntaxRef` here, because `syntax`
is reserved in Lean.
-/

namespace slang

/-! ## Types declared in headers outside `BoundNodes.h` -/

/-- Modelled from the spec: the syntax-tree headers are missing. An expression
syntax node is only ever referenced ("back-reference to originating syntax
node (non-owning)"), so it is a handle. -/
structure ExpressionSyntax where
  id : Nat
  deriving DecidableEq, Repr

/-- Modelled from the spec: the syntax-tree headers are missing. A statement
syntax node is only ever referenced, so it is a handle. -/
structure StatementSyntax where
  id : Nat
  deriving DecidableEq, Repr

/-- Modelled from the spec: `TypeSymbol` is only forward-declared in the header
(`class TypeSymbol;`). The spec asks for "immutable type handles usable for
identity/equality comparison". -/
structure TypeSymbol where
  name : String
  deriving DecidableEq, Repr

/-- Modelled from the spec: `ConstantValue.h` is missing. The spec says "an
in-memory constant value (owned inline)"; it is either empty or an integer. -/
inductive ConstantValue where
  | null
  | integer (value : Int)
  deriving DecidableEq, Repr

/-- Modelled from the spec: `ConstantValue.h` is missing. Copy construction
(`value(value)`) yields a constant equal to its source. -/
def ConstantValue.copy (v : ConstantValue) : ConstantValue := v

/-- Modelled from the spec: `ConstantValue.h` is missing. Move construction
(`value(std::move(value))`) yields the constant that the source held and leaves
the source empty; the pair is (new object, moved-from source). -/
def ConstantValue.move (v : ConstantValue) : ConstantValue × ConstantValue :=
  (v, ConstantValue.null)

/-- Modelled from the spec: `Symbol.h` is missing. A parameter symbol is a
handle "exposing a declared type"; `type` is what `symbol.type` reads, a
`const TypeSymbol*`. -/
structure ParameterSymbol where
  name : String
  type : Option TypeSymbol
  deriving DecidableEq, Repr

/-- Modelled from the spec: `Symbol.h` is missing. A variable symbol is a
handle "exposing a declared type"; `type` is what `symbol->type` reads. -/
structure VariableSymbol where
  name : String
  type : Option TypeSymbol
  deriving DecidableEq, Repr

/-- Modelled from the spec: `Symbol.h` is missing. A subroutine symbol exposes
its return type (`subroutine->returnType`) and has formal parameters ("a
two-parameter subroutine"). -/
structure SubroutineSymbol where
  name : String
  returnType : Option TypeSymbol
  parameters : List ParameterSymbol
  deriving DecidableEq, Repr

/-! ## `BoundNodeKind` and the base classes -/

/-- The enumeration `BoundNodeKind`, in the order of the header. -/
inductive BoundNodeKind where
  | Unknown
  | Literal
  | Parameter
  | Variable
  | UnaryExpression
  | BinaryExpression
  | TernaryExpression
  | AssignmentExpression
  | CallExpression
  | StatementList
  | ReturnStatement
  | VariableDeclaration
  | ConditionalStatement
  deriving DecidableEq, Repr

/-- The class `BoundNode`: the `kind` tag. `BoundNode.mk kind` is the
constructor `BoundNode(BoundNodeKind kind) : kind(kind)`. -/
structure BoundNode where
  kind : BoundNodeKind
  deriving DecidableEq, Repr

/-- The member `bool bad() const { return kind == BoundNodeKind::Unknown; }`. -/
def BoundNode.bad (n : BoundNode) : Bool :=
  n.kind == BoundNodeKind.Unknown

/-- The sub-object of class `BoundExpression` inside every expression node:
the `BoundNode` base, `syntax` and `type`. -/
structure BoundExpressionBase extends BoundNode where
  syntaxRef : Option ExpressionSyntax
  type : Option TypeSymbol
  deriving DecidableEq, Repr

/-- The constructor `BoundExpression(kind, syntax, type) :
BoundNode(kind), syntax(syntax), type(type)`. -/
def BoundExpressionBase.ctor (kind : BoundNodeKind) (syn : Option ExpressionSyntax)
    (type : Option TypeSymbol) : BoundExpressionBase :=
  ⟨BoundNode.mk kind, syn, type⟩

/-- The sub-object of class `BoundStatement` inside every statement node: the
`BoundNode` base and `syntax`. -/
structure BoundStatementBase extends BoundNode where
  syntaxRef : Option StatementSyntax
  deriving DecidableEq, Repr

/-- The constructor `BoundStatement(kind, syntax) : BoundNode(kind),
syntax(syntax)`. -/
def BoundStatementBase.ctor (kind : BoundNodeKind) (syn : Option StatementSyntax) :
    BoundStatementBase :=
  ⟨BoundNode.mk kind, syn⟩

/-! ## Expression nodes -/

/-- What a `BoundExpression*` can point to: one case per class derived from
`BoundExpression`, holding the base sub-object and the members the class
declares, in declaration order. -/
inductive BoundExpression where
  | badBoundExpression (base : BoundExpressionBase) (child : Option BoundExpression)
  | boundLiteral (base : BoundExpressionBase) (value : ConstantValue)
  | boundParameter (base : BoundExpressionBase) (symbol : ParameterSymbol)
  | boundVariable (base : BoundExpressionBase) (symbol : Option VariableSymbol)
  | boundUnaryExpression (base : BoundExpressionBase) (operand : Option BoundExpression)
  | boundBinaryExpression (base : BoundExpressionBase) (left right : Option BoundExpression)
  | boundAssignmentExpression (base : BoundExpressionBase) (left right : Option BoundExpression)
  | boundCallExpression (base : BoundExpressionBase) (subroutine : Option SubroutineSymbol)
      (arguments : List (Option BoundExpression))
  | boundTernaryExpression (base : BoundExpressionBase) (pred left right : Option BoundExpression)

namespace BoundExpression

/-- The `BoundExpression` sub-object of a node (the implicit upcast). -/
def base : BoundExpression → BoundExpressionBase
  | badBoundExpression b _ => b
  | boundLiteral b _ => b
  | boundParameter b _ => b
  | boundVariable b _ => b
  | boundUnaryExpression b _ => b
  | boundBinaryExpression b _ _ => b
  | boundAssignmentExpression b _ _ => b
  | boundCallExpression b _ _ => b
  | boundTernaryExpression b _ _ _ => b

/-- The `BoundNode` view of an expression node. -/
def toBoundNode (e : BoundExpression) : BoundNode := e.base.toBoundNode

/-- Reads `node.kind`. -/
def kind (e : BoundExpression) : BoundNodeKind := e.base.kind

/-- Reads `node.syntax`. -/
def syntaxRef (e : BoundExpression) : Option ExpressionSyntax := e.base.syntaxRef

/-- Reads `node.type`. -/
def type (e : BoundExpression) : Option TypeSymbol := e.base.type

/-- Calls `node.bad()`, inherited from `BoundNode`. -/
def isBad (e : BoundExpression) : Bool := e.toBoundNode.bad

/-- Reads `child` of a node whose class is `BadBoundExpression`; `none` for a
node of another class. -/
def child? : BoundExpression → Option (Option BoundExpression)
  | badBoundExpression _ c => some c
  | _ => none

/-- Reads `value` of a node whose class is `BoundLiteral`. -/
def value? : BoundExpression → Option ConstantValue
  | boundLiteral _ v => some v
  | _ => none

/-- Reads `symbol` of a node whose class is `BoundParameter`. -/
def parameterSymbol? : BoundExpression → Option ParameterSymbol
  | boundParameter _ p => some p
  | _ => none

/-- Reads `symbol` of a node whose class is `BoundVariable`. -/
def variableSymbol? : BoundExpression → Option (Option VariableSymbol)
  | boundVariable _ v => some v
  | _ => none

/-- Reads `operand` of a node whose class is `BoundUnaryExpression`. -/
def operand? : BoundExpression → Option (Option BoundExpression)
  | boundUnaryExpression _ o => some o
  | _ => none

/-- Reads `pred` of a node whose class is `BoundTernaryExpression`. -/
def pred? : BoundExpression → Option (Option BoundExpression)
  | boundTernaryExpression _ p _ _ => some p
  | _ => none

/-- Reads `left` of a node whose class declares it (binary, assignment,
ternary). -/
def left? : BoundExpression → Option (Option BoundExpression)
  | boundBinaryExpression _ l _ => some l
  | boundAssignmentExpression _ l _ => some l
  | boundTernaryExpression _ _ l _ => some l
  | _ => none

/-- Reads `right` of a node whose class declares it (binary, assignment,
ternary). -/
def right? : BoundExpression → Option (Option BoundExpression)
  | boundBinaryExpression _ _ r => some r
  | boundAssignmentExpression _ _ r => some r
  | boundTernaryExpression _ _ _ r => some r
  | _ => none

/-- Reads `subroutine` of a node whose class is `BoundCallExpression`. -/
def subroutine? : BoundExpression → Option (Option SubroutineSymbol)
  | boundCallExpression _ s _ => some s
  | _ => none

/-- Reads `arguments` of a node whose class is `BoundCallExpression`. -/
def arguments? : BoundExpression → Option (List (Option BoundExpression))
  | boundCallExpression _ _ a => some a
  | _ => none

end BoundExpression

/-! ### The constructors of the expression classes -/

/-- `BadBoundExpression(BoundExpression* child) :
BoundExpression(BoundNodeKind::Unknown, nullptr, nullptr), child(child)`. -/
def BadBoundExpression (child : Option BoundExpression) : BoundExpression :=
  BoundExpression.badBoundExpression
    (BoundExpressionBase.ctor BoundNodeKind.Unknown none none) child

/-- `BoundLiteral(syntax, type, const ConstantValue& value) :
BoundExpression(BoundNodeKind::Literal, syntax, type), value(value)`. -/
def BoundLiteral (syn : Option ExpressionSyntax) (type : Option TypeSymbol)
    (value : ConstantValue) : BoundExpression :=
  BoundExpression.boundLiteral
    (BoundExpressionBase.ctor BoundNodeKind.Literal syn type) value.copy

/-- `BoundLiteral(syntax, type, ConstantValue&& value) :
BoundExpression(BoundNodeKind::Literal, syntax, type), value(std::move(value))`.
The result is the node together with the caller's moved-from constant. -/
def BoundLiteralMove (syn : Option ExpressionSyntax) (type : Option TypeSymbol)
    (value : ConstantValue) : BoundExpression × ConstantValue :=
  (BoundExpression.boundLiteral
    (BoundExpressionBase.ctor BoundNodeKind.Literal syn type) value.move.1,
   value.move.2)

/-- `BoundParameter(syntax, const ParameterSymbol& symbol) :
BoundExpression(BoundNodeKind::Parameter, syntax, symbol.type), symbol(symbol)`. -/
def BoundParameter (syn : Option ExpressionSyntax) (symbol : ParameterSymbol) :
    BoundExpression :=
  BoundExpression.boundParameter
    (BoundExpressionBase.ctor BoundNodeKind.Parameter syn symbol.type) symbol

/-- `BoundVariable(syntax, const VariableSymbol* symbol) :
BoundExpression(BoundNodeKind::Variable, syntax, symbol->type), symbol(symbol)`.
`symbol->type` reads through `symbol` and nothing checks `symbol` before: with a
null `symbol` the behaviour is undefined, for which `none` stands (it is not a
failure of the constructor, which has no failure path). -/
def BoundVariable (syn : Option ExpressionSyntax) (symbol : Option VariableSymbol) :
    Option BoundExpression :=
  symbol.map fun pointee =>
    BoundExpression.boundVariable
      (BoundExpressionBase.ctor BoundNodeKind.Variable syn pointee.type) symbol

/-- `BoundUnaryExpression(syntax, type, operand) :
BoundExpression(BoundNodeKind::UnaryExpression, syntax, type), operand(operand)`. -/
def BoundUnaryExpression (syn : Option ExpressionSyntax) (type : Option TypeSymbol)
    (operand : Option BoundExpression) : BoundExpression :=
  BoundExpression.boundUnaryExpression
    (BoundExpressionBase.ctor BoundNodeKind.UnaryExpression syn type) operand

/-- `BoundBinaryExpression(syntax, type, left, right) :
BoundExpression(BoundNodeKind::BinaryExpression, syntax, type), left(left),
right(right)`. -/
def BoundBinaryExpression (syn : Option ExpressionSyntax) (type : Option TypeSymbol)
    (left right : Option BoundExpression) : BoundExpression :=
  BoundExpression.boundBinaryExpression
    (BoundExpressionBase.ctor BoundNodeKind.BinaryExpression syn type) left right

/-- `BoundAssignmentExpression(syntax, type, left, right) :
BoundExpression(BoundNodeKind::AssignmentExpression, syntax, type), left(left),
right(right)`. -/
def BoundAssignmentExpression (syn : Option ExpressionSyntax) (type : Option TypeSymbol)
    (left right : Option BoundExpression) : BoundExpression :=
  BoundExpression.boundAssignmentExpression
    (BoundExpressionBase.ctor BoundNodeKind.AssignmentExpression syn type) left right

/-- `BoundCallExpression(syntax, const SubroutineSymbol* subroutine, arguments) :
BoundExpression(BoundNodeKind::CallExpression, syntax, subroutine->returnType),
subroutine(subroutine), arguments(arguments)`. `subroutine->returnType`
reads through `subroutine` and nothing checks `subroutine` before: with a null
`subroutine` the behaviour is undefined, for which `none` stands. -/
def BoundCallExpression (syn : Option ExpressionSyntax)
    (subroutine : Option SubroutineSymbol) (arguments : List (Option BoundExpression)) :
    Option BoundExpression :=
  subroutine.map fun pointee =>
    BoundExpression.boundCallExpression
      (BoundExpressionBase.ctor BoundNodeKind.CallExpression syn pointee.returnType)
      subroutine arguments

/-- `BoundTernaryExpression(syntax, type, pred, left, right) :
BoundExpression(BoundNodeKind::TernaryExpression, syntax, type), pred(pred),
left(left), right(right)`. -/
def BoundTernaryExpression (syn : Option ExpressionSyntax) (type : Option TypeSymbol)
    (pred left right : Option BoundExpression) : BoundExpression :=
  BoundExpression.boundTernaryExpression
    (BoundExpressionBase.ctor BoundNodeKind.TernaryExpression syn type) pred left right

/-! ## Statement nodes -/

/-- What a `BoundStatement*` can point to: one case per class derived from
`BoundStatement`, holding the base sub-object and the members the class
declares, in declaration order. -/
inductive BoundStatement where
  | badBoundStatement (base : BoundStatementBase) (child : Option BoundStatement)
  | boundStatementList (base : BoundStatementBase) (list : List (Option BoundStatement))
  | boundReturnStatement (base : BoundStatementBase) (expr : Option BoundExpression)
  | boundVariableDecl (base : BoundStatementBase) (symbol : Option VariableSymbol)
  | boundConditionalStatement (base : BoundStatementBase) (cond : Option BoundExpression)
      (ifTrue ifFalse : Option BoundStatement)

namespace BoundStatement

/-- The `BoundStatement` sub-object of a node (the implicit upcast). -/
def base : BoundStatement → BoundStatementBase
  | badBoundStatement b _ => b
  | boundStatementList b _ => b
  | boundReturnStatement b _ => b
  | boundVariableDecl b _ => b
  | boundConditionalStatement b _ _ _ => b

/-- The `BoundNode` view of a statement node. -/
def toBoundNode (s : BoundStatement) : BoundNode := s.base.toBoundNode

/-- Reads `node.kind`. -/
def kind (s : BoundStatement) : BoundNodeKind := s.base.kind

/-- Reads `node.syntax`. -/
def syntaxRef (s : BoundStatement) : Option StatementSyntax := s.base.syntaxRef

/-- Calls `node.bad()`, inherited from `BoundNode`. -/
def isBad (s : BoundStatement) : Bool := s.toBoundNode.bad

/-- Reads `child` of a node whose class is `BadBoundStatement`. -/
def child? : BoundStatement → Option (Option BoundStatement)
  | badBoundStatement _ c => some c
  | _ => none

/-- Reads `list` of a node whose class is `BoundStatementList`. -/
def list? : BoundStatement → Option (List (Option BoundStatement))
  | boundStatementList _ l => some l
  | _ => none

/-- Reads `expr` of a node whose class is `BoundReturnStatement`. -/
def expr? : BoundStatement → Option (Option BoundExpression)
  | boundReturnStatement _ e => some e
  | _ => none

/-- Reads `symbol` of a node whose class is `BoundVariableDecl`. -/
def symbol? : BoundStatement → Option (Option VariableSymbol)
  | boundVariableDecl _ v => some v
  | _ => none

/-- Reads `cond` of a node whose class is `BoundConditionalStatement`. -/
def cond? : BoundStatement → Option (Option BoundExpression)
  | boundConditionalStatement _ c _ _ => some c
  | _ => none

/-- Reads `ifTrue` of a node whose class is `BoundConditionalStatement`. -/
def ifTrue? : BoundStatement → Option (Option BoundStatement)
  | boundConditionalStatement _ _ t _ => some t
  | _ => none

/-- Reads `ifFalse` of a node whose class is `BoundConditionalStatement`. -/
def ifFalse? : BoundStatement → Option (Option BoundStatement)
  | boundConditionalStatement _ _ _ f => some f
  | _ => none

end BoundStatement

/-! ### The constructors of the statement classes -/

/-- `BadBoundStatement(BoundStatement* child) :
BoundStatement(BoundNodeKind::Unknown, nullptr), child(child)`. -/
def BadBoundStatement (child : Option BoundStatement) : BoundStatement :=
  BoundStatement.badBoundStatement
    (BoundStatementBase.ctor BoundNodeKind.Unknown none) child

/-- `BoundStatementList(ArrayRef<const BoundStatement*> list) :
BoundStatement(BoundNodeKind::StatementList, nullptr), list(list)`. -/
def BoundStatementList (list : List (Option BoundStatement)) : BoundStatement :=
  BoundStatement.boundStatementList
    (BoundStatementBase.ctor BoundNodeKind.StatementList none) list

/-- `BoundReturnStatement(syntax, expr) :
BoundStatement(BoundNodeKind::ReturnStatement, syntax), expr(expr)`. -/
def BoundReturnStatement (syn : Option StatementSyntax) (expr : Option BoundExpression) :
    BoundStatement :=
  BoundStatement.boundReturnStatement
    (BoundStatementBase.ctor BoundNodeKind.ReturnStatement syn) expr

/-- `BoundVariableDecl(const VariableSymbol* symbol) :
BoundStatement(BoundNodeKind::VariableDeclaration, nullptr), symbol(symbol)`.
The pointer is stored and not dereferenced. -/
def BoundVariableDecl (symbol : Option VariableSymbol) : BoundStatement :=
  BoundStatement.boundVariableDecl
    (BoundStatementBase.ctor BoundNodeKind.VariableDeclaration none) symbol

/-- `BoundConditionalStatement(syntax, cond, ifTrue, ifFalse) :
BoundStatement(BoundNodeKind::ConditionalStatement, syntax), cond(cond),
ifTrue(ifTrue), ifFalse(ifFalse)`. -/
def BoundConditionalStatement (syn : Option StatementSyntax)
    (cond : Option BoundExpression) (ifTrue ifFalse : Option BoundStatement) :
    BoundStatement :=
  BoundStatement.boundConditionalStatement
    (BoundStatementBase.ctor BoundNodeKind.ConditionalStatement syn) cond ifTrue ifFalse

/-! ## Nodes of either branch, and the class of a node -/

/-- The fourteen concrete classes of the header. -/
inductive NodeClass where
  | BadBoundExpression
  | BoundLiteral
  | BoundParameter
  | BoundVariable
  | BoundUnaryExpression
  | BoundBinaryExpression
  | BoundAssignmentExpression
  | BoundCallExpression
  | BoundTernaryExpression
  | BadBoundStatement
  | BoundStatementList
  | BoundReturnStatement
  | BoundVariableDecl
  | BoundConditionalStatement
  deriving DecidableEq, Repr

/-- The class an expression node was declared with (its dynamic type). -/
def BoundExpression.nodeClass : BoundExpression → NodeClass
  | badBoundExpression _ _ => NodeClass.BadBoundExpression
  | boundLiteral _ _ => NodeClass.BoundLiteral
  | boundParameter _ _ => NodeClass.BoundParameter
  | boundVariable _ _ => NodeClass.BoundVariable
  | boundUnaryExpression _ _ => NodeClass.BoundUnaryExpression
  | boundBinaryExpression _ _ _ => NodeClass.BoundBinaryExpression
  | boundAssignmentExpression _ _ _ => NodeClass.BoundAssignmentExpression
  | boundCallExpression _ _ _ => NodeClass.BoundCallExpression
  | boundTernaryExpression _ _ _ _ => NodeClass.BoundTernaryExpression

/-- The class a statement node was declared with (its dynamic type). -/
def BoundStatement.nodeClass : BoundStatement → NodeClass
  | badBoundStatement _ _ => NodeClass.BadBoundStatement
  | boundStatementList _ _ => NodeClass.BoundStatementList
  | boundReturnStatement _ _ => NodeClass.BoundReturnStatement
  | boundVariableDecl _ _ => NodeClass.BoundVariableDecl
  | boundConditionalStatement _ _ _ _ => NodeClass.BoundConditionalStatement

/-- What a `BoundNode*` can point to: an expression node or a statement node. -/
inductive AnyNode where
  | expression (e : BoundExpression)
  | statement (s : BoundStatement)

namespace AnyNode

/-- The `BoundNode` view of a node. -/
def toBoundNode : AnyNode → BoundNode
  | expression e => e.toBoundNode
  | statement s => s.toBoundNode

/-- Reads `node.kind`. -/
def kind (n : AnyNode) : BoundNodeKind := n.toBoundNode.kind

/-- The class of a node. -/
def nodeClass : AnyNode → NodeClass
  | expression e => e.nodeClass
  | statement s => s.nodeClass

/-- Whether the node is one of the two bad sentinels, `BadBoundExpression` or
`BadBoundStatement`. -/
def isBadSentinel (n : AnyNode) : Bool :=
  n.nodeClass == NodeClass.BadBoundExpression || n.nodeClass == NodeClass.BadBoundStatement

end AnyNode

/-- The nodes that come out of the constructors of the fourteen concrete
classes (both overloads of `BoundLiteral`), for every choice of arguments for
which C++ defines the outcome. -/
inductive Constructed : AnyNode → Prop where
  | badBoundExpression (child : Option BoundExpression) :
      Constructed (AnyNode.expression (BadBoundExpression child))
  | boundLiteral (syn : Option ExpressionSyntax) (type : Option TypeSymbol)
      (value : ConstantValue) :
      Constructed (AnyNode.expression (BoundLiteral syn type value))
  | boundLiteralMove (syn : Option ExpressionSyntax) (type : Option TypeSymbol)
      (value : ConstantValue) :
      Constructed (AnyNode.expression (BoundLiteralMove syn type value).1)
  | boundParameter (syn : Option ExpressionSyntax) (symbol : ParameterSymbol) :
      Constructed (AnyNode.expression (BoundParameter syn symbol))
  | boundVariable (syn : Option ExpressionSyntax) (symbol : Option VariableSymbol)
      (node : BoundExpression) (h : BoundVariable syn symbol = some node) :
      Constructed (AnyNode.expression node)
  | boundUnaryExpression (syn : Option ExpressionSyntax) (type : Option TypeSymbol)
      (operand : Option BoundExpression) :
      Constructed (AnyNode.expression (BoundUnaryExpression syn type operand))
  | boundBinaryExpression (syn : Option ExpressionSyntax) (type : Option TypeSymbol)
      (left right : Option BoundExpression) :
      Constructed (AnyNode.expression (BoundBinaryExpression syn type left right))
  | boundAssignmentExpression (syn : Option ExpressionSyntax) (type : Option TypeSymbol)
      (left right : Option BoundExpression) :
      Constructed (AnyNode.expression (BoundAssignmentExpression syn type left right))
  | boundCallExpression (syn : Option ExpressionSyntax)
      (subroutine : Option SubroutineSymbol) (arguments : List (Option BoundExpression))
      (node : BoundExpression) (h : BoundCallExpression syn subroutine arguments = some node) :
      Constructed (AnyNode.expression node)
  | boundTernaryExpression (syn : Option ExpressionSyntax) (type : Option TypeSymbol)
      (pred left right : Option BoundExpression) :
      Constructed (AnyNode.expression (BoundTernaryExpression syn type pred left right))
  | badBoundStatement (child : Option BoundStatement) :
      Constructed (AnyNode.statement (BadBoundStatement child))
  | boundStatementList (list : List (Option BoundStatement)) :
      Constructed (AnyNode.statement (BoundStatementList list))
  | boundReturnStatement (syn : Option StatementSyntax) (expr : Option BoundExpression) :
      Constructed (AnyNode.statement (BoundReturnStatement syn expr))
  | boundVariableDecl (symbol : Option VariableSymbol) :
      Constructed (AnyNode.statement (BoundVariableDecl symbol))
  | boundConditionalStatement (syn : Option StatementSyntax)
      (cond : Option BoundExpression) (ifTrue ifFalse : Option BoundStatement) :
      Constructed (AnyNode.statement (BoundConditionalStatement syn cond ifTrue ifFalse))

/-! ## Sample values -/

/-- A type handle for an integer type. -/
def intType : TypeSymbol := ⟨"int"⟩

/-- The literal `42` of the integer type, bound from the syntax node `0`. -/
def literal42 : BoundExpression :=
  BoundLiteral (some ⟨0⟩) (some intType) (ConstantValue.integer 42)

/-- A variable `x` of the integer type. -/
def variableX : VariableSymbol := ⟨"x", some intType⟩

/-- A subroutine `f` with two parameters `a` and `b`, returning the integer
type. -/
def subroutineF : SubroutineSymbol :=
  ⟨"f", some intType, [⟨"a", some intType⟩, ⟨"b", some intType⟩]⟩

/-- Three statements, the second one a `BadBoundStatement`: `return 42;`, a bad
statement wrapping nothing, and the declaration of `x`. -/
def threeStatements : List (Option BoundStatement) :=
  [some (BoundReturnStatement (some ⟨0⟩) (some literal42)),
   some (BadBoundStatement none),
   some (BoundVariableDecl (some variableX))]

/-! ## Properties named by the specification -/

/-- The property `node.type == type_of(node.value)` of a literal node, for a
given `type_of`; the header has no such function, so it is a parameter. -/
def TypeMatchesValue (typeOf : ConstantValue → Option TypeSymbol)
    (node : BoundExpression) : Prop :=
  ∃ v, node.value? = some v ∧ node.type = typeOf v

/-- Reads `list[i]->bad()` in a statement sequence: `none` when `i` is past the
end or the pointer at index `i` is null. -/
def badAt? (list : List (Option BoundStatement)) (i : Nat) : Option Bool :=
  (list[i]?).bind fun pointer => pointer.map BoundStatement.isBad

/-- The kind that the constructor of each class passes to its base
constructor, read off the fourteen initialiser lists of the header. -/
def NodeClass.kind : NodeClass → BoundNodeKind
  | BadBoundExpression => BoundNodeKind.Unknown
  | BoundLiteral => BoundNodeKind.Literal
  | BoundParameter => BoundNodeKind.Parameter
  | BoundVariable => BoundNodeKind.Variable
  | BoundUnaryExpression => BoundNodeKind.UnaryExpression
  | BoundBinaryExpression => BoundNodeKind.BinaryExpression
  | BoundAssignmentExpression => BoundNodeKind.AssignmentExpression
  | BoundCallExpression => BoundNodeKind.CallExpression
  | BoundTernaryExpression => BoundNodeKind.TernaryExpression
  | BadBoundStatement => BoundNodeKind.Unknown
  | BoundStatementList => BoundNodeKind.StatementList
  | BoundReturnStatement => BoundNodeKind.ReturnStatement
  | BoundVariableDecl => BoundNodeKind.VariableDeclaration
  | BoundConditionalStatement => BoundNodeKind.ConditionalStatement

/-! ## Nodes in memory

The classes once more, with the pointers to child nodes kept as raw addresses
instead of the nodes they point to, so that two child slots can be seen to hold
the same node. The constructors are the same initialiser lists. -/

/-- A node as it lies in memory: the base sub-object and the members of its
class, every pointer to a child node a raw pointer (`none` is `nullptr`, `some
a` is the address `a`). One case per concrete class. -/
inductive NodeObject where
  | badBoundExpression (base : BoundExpressionBase) (child : Option Nat)
  | boundLiteral (base : BoundExpressionBase) (value : ConstantValue)
  | boundParameter (base : BoundExpressionBase) (symbol : ParameterSymbol)
  | boundVariable (base : BoundExpressionBase) (symbol : Option VariableSymbol)
  | boundUnaryExpression (base : BoundExpressionBase) (operand : Option Nat)
  | boundBinaryExpression (base : BoundExpressionBase) (left right : Option Nat)
  | boundAssignmentExpression (base : BoundExpressionBase) (left right : Option Nat)
  | boundCallExpression (base : BoundExpressionBase) (subroutine : Option SubroutineSymbol)
      (arguments : List (Option Nat))
  | boundTernaryExpression (base : BoundExpressionBase) (pred left right : Option Nat)
  | badBoundStatement (base : BoundStatementBase) (child : Option Nat)
  | boundStatementList (base : BoundStatementBase) (list : List (Option Nat))
  | boundReturnStatement (base : BoundStatementBase) (expr : Option Nat)
  | boundVariableDecl (base : BoundStatementBase) (symbol : Option VariableSymbol)
  | boundConditionalStatement (base : BoundStatementBase) (cond ifTrue ifFalse : Option Nat)
  deriving DecidableEq, Repr

/-- The child slots of a node, in declaration order: the members that point to
a `BoundExpression` or a `BoundStatement`. -/
def NodeObject.childSlots : NodeObject → List (Option Nat)
  | badBoundExpression _ child => [child]
  | boundLiteral _ _ => []
  | boundParameter _ _ => []
  | boundVariable _ _ => []
  | boundUnaryExpression _ operand => [operand]
  | boundBinaryExpression _ left right => [left, right]
  | boundAssignmentExpression _ left right => [left, right]
  | boundCallExpression _ _ arguments => arguments
  | boundTernaryExpression _ pred left right => [pred, left, right]
  | badBoundStatement _ child => [child]
  | boundStatementList _ list => list
  | boundReturnStatement _ expr => [expr]
  | boundVariableDecl _ _ => []
  | boundConditionalStatement _ cond ifTrue ifFalse => [cond, ifTrue, ifFalse]

namespace InMemory

/-- `BadBoundExpression(BoundExpression* child) :
BoundExpression(BoundNodeKind::Unknown, nullptr, nullptr), child(child)`. -/
def BadBoundExpression (child : Option Nat) : NodeObject :=
  NodeObject.badBoundExpression
    (BoundExpressionBase.ctor BoundNodeKind.Unknown none none) child

/-- `BoundLiteral(syntax, type, const ConstantValue& value) :
BoundExpression(BoundNodeKind::Literal, syntax, type), value(value)`. -/
def BoundLiteral (syn : Option ExpressionSyntax) (type : Option TypeSymbol)
    (value : ConstantValue) : NodeObject :=
  NodeObject.boundLiteral
    (BoundExpressionBase.ctor BoundNodeKind.Literal syn type) value.copy

/-- `BoundLiteral(syntax, type, ConstantValue&& value) :
BoundExpression(BoundNodeKind::Literal, syntax, type), value(std::move(value))`. -/
def BoundLiteralMove (syn : Option ExpressionSyntax) (type : Option TypeSymbol)
    (value : ConstantValue) : NodeObject × ConstantValue :=
  (NodeObject.boundLiteral
    (BoundExpressionBase.ctor BoundNodeKind.Literal syn type) value.move.1,
   value.move.2)

/-- `BoundParameter(syntax, const ParameterSymbol& symbol) :
BoundExpression(BoundNodeKind::Parameter, syntax, symbol.type), symbol(symbol)`. -/
def BoundParameter (syn : Option ExpressionSyntax) (symbol : ParameterSymbol) :
    NodeObject :=
  NodeObject.boundParameter
    (BoundExpressionBase.ctor BoundNodeKind.Parameter syn symbol.type) symbol

/-- `BoundVariable(syntax, const VariableSymbol* symbol) :
BoundExpression(BoundNodeKind::Variable, syntax, symbol->type), symbol(symbol)`;
`none` for the undefined behaviour with a null `symbol`. -/
def BoundVariable (syn : Option ExpressionSyntax) (symbol : Option VariableSymbol) :
    Option NodeObject :=
  symbol.map fun pointee =>
    NodeObject.boundVariable
      (BoundExpressionBase.ctor BoundNodeKind.Variable syn pointee.type) symbol

/-- `BoundUnaryExpression(syntax, type, operand) :
BoundExpression(BoundNodeKind::UnaryExpression, syntax, type), operand(operand)`. -/
def BoundUnaryExpression (syn : Option ExpressionSyntax) (type : Option TypeSymbol)
    (operand : Option Nat) : NodeObject :=
  NodeObject.boundUnaryExpression
    (BoundExpressionBase.ctor BoundNodeKind.UnaryExpression syn type) operand

/-- `BoundBinaryExpression(syntax, type, left, right) :
BoundExpression(BoundNodeKind::BinaryExpression, syntax, type), left(left),
right(right)`. -/
def BoundBinaryExpression (syn : Option ExpressionSyntax) (type : Option TypeSymbol)
    (left right : Option Nat) : NodeObject :=
  NodeObject.boundBinaryExpression
    (BoundExpressionBase.ctor BoundNodeKind.BinaryExpression syn type) left right

/-- `BoundAssignmentExpression(syntax, type, left, right) :
BoundExpression(BoundNodeKind::AssignmentExpression, syntax, type), left(left),
right(right)`. -/
def BoundAssignmentExpression (syn : Option ExpressionSyntax) (type : Option TypeSymbol)
    (left right : Option Nat) : NodeObject :=
  NodeObject.boundAssignmentExpression
    (BoundExpressionBase.ctor BoundNodeKind.AssignmentExpression syn type) left right

/-- `BoundCallExpression(syntax, const SubroutineSymbol* subroutine, arguments) :
BoundExpression(BoundNodeKind::CallExpression, syntax, subroutine->returnType),
subroutine(subroutine), arguments(arguments)`; `none` for the undefined behaviour with a null
`subroutine`. -/
def BoundCallExpression (syn : Option ExpressionSyntax)
    (subroutine : Option SubroutineSymbol) (arguments : List (Option Nat)) :
    Option NodeObject :=
  subroutine.map fun pointee =>
    NodeObject.boundCallExpression
      (BoundExpressionBase.ctor BoundNodeKind.CallExpression syn pointee.returnType)
      subroutine arguments

/-- `BoundTernaryExpression(syntax, type, pred, left, right) :
BoundExpression(BoundNodeKind::TernaryExpression, syntax, type), pred(pred),
left(left), right(right)`. -/
def BoundTernaryExpression (syn : Option ExpressionSyntax) (type : Option TypeSymbol)
    (pred left right : Option Nat) : NodeObject :=
  NodeObject.boundTernaryExpression
    (BoundExpressionBase.ctor BoundNodeKind.TernaryExpression syn type) pred left right

/-- `BadBoundStatement(BoundStatement* child) :
BoundStatement(BoundNodeKind::Unknown, nullptr), child(child)`. -/
def BadBoundStatement (child : Option Nat) : NodeObject :=
  NodeObject.badBoundStatement
    (BoundStatementBase.ctor BoundNodeKind.Unknown none) child

/-- `BoundStatementList(ArrayRef<const BoundStatement*> list) :
BoundStatement(BoundNodeKind::StatementList, nullptr), list(list)`. -/
def BoundStatementList (list : List (Option Nat)) : NodeObject :=
  NodeObject.boundStatementList
    (BoundStatementBase.ctor BoundNodeKind.StatementList none) list

/-- `BoundReturnStatement(syntax, expr) :
BoundStatement(BoundNodeKind::ReturnStatement, syntax), expr(expr)`. -/
def BoundReturnStatement (syn : Option StatementSyntax) (expr : Option Nat) :
    NodeObject :=
  NodeObject.boundReturnStatement
    (BoundStatementBase.ctor BoundNodeKind.ReturnStatement syn) expr

/-- `BoundVariableDecl(const VariableSymbol* symbol) :
BoundStatement(BoundNodeKind::VariableDeclaration, nullptr), symbol(symbol)`. -/
def BoundVariableDecl (symbol : Option VariableSymbol) : NodeObject :=
  NodeObject.boundVariableDecl
    (BoundStatementBase.ctor BoundNodeKind.VariableDeclaration none) symbol

/-- `BoundConditionalStatement(syntax, cond, ifTrue, ifFalse) :
BoundStatement(BoundNodeKind::ConditionalStatement, syntax), cond(cond),
ifTrue(ifTrue), ifFalse(ifFalse)`. -/
def BoundConditionalStatement (syn : Option StatementSyntax)
    (cond ifTrue ifFalse : Option Nat) : NodeObject :=
  NodeObject.boundConditionalStatement
    (BoundStatementBase.ctor BoundNodeKind.ConditionalStatement syn) cond ifTrue ifFalse

end InMemory

/-- The nodes allocated so far; the address of a node is its index. -/
abbrev Memory := List NodeObject

/-- The allocation `new T(...)` of a constructed node: the node is placed at the
next free address, and nothing already in memory changes. The result is the
memory afterwards and the address of the node. -/
def Memory.new (m : Memory) (node : NodeObject) : Memory × Nat :=
  (m ++ [node], m.length)

/-- The number of child slots, over all nodes in memory, that hold the address
`a`: the number of times the node at `a` is somebody's child. -/
def Memory.referencesTo (m : Memory) (a : Nat) : Nat :=
  (m.map fun node => node.childSlots.count (some a)).sum

/-- No node is shared: every address is held by at most one child slot. -/
def Memory.Unshared (m : Memory) : Prop :=
  ∀ a, m.referencesTo a ≤ 1

/-- The literal `42` at address 0, and at address 1 the binary expression
`BoundBinaryExpression(syntax, type, e, e)` whose two operands are both the
literal. -/
def sameOperandTwice : Memory :=
  (Memory.new
    (Memory.new [] (InMemory.BoundLiteral (some ⟨0⟩) (some intType)
      (ConstantValue.integer 42))).1
    (InMemory.BoundBinaryExpression (some ⟨1⟩) (some intType) (some 0) (some 0))).1

/-- The literal `42` at address 0, and at addresses 1 and 2 two unary
expressions over that same literal. -/
def sameOperandOfTwoParents : Memory :=
  (Memory.new
    (Memory.new
      (Memory.new [] (InMemory.BoundLiteral (some ⟨0⟩) (some intType)
        (ConstantValue.integer 42))).1
      (InMemory.BoundUnaryExpression (some ⟨1⟩) (some intType) (some 0))).1
    (InMemory.BoundUnaryExpression (some ⟨2⟩) (some intType) (some 0))).1

/-- The literal `42` at address 0 alone. -/
def literalAlone : Memory :=
  (Memory.new [] (InMemory.BoundLiteral (some ⟨0⟩) (some intType)
    (ConstantValue.integer 42))).1

/-! ## Shared lemmas -/

theorem BoundNode.bad_eq_true_iff (n : BoundNode) :
    n.bad = true ↔ n.kind = BoundNodeKind.Unknown := by
  simp [BoundNode.bad]

theorem BoundVariable_eq_some (syn : Option ExpressionSyntax) (v : VariableSymbol) :
    BoundVariable syn (some v) =
      some (BoundExpression.boundVariable
        (BoundExpressionBase.ctor BoundNodeKind.Variable syn v.type) (some v)) := rfl

theorem BoundCallExpression_eq_some (syn : Option ExpressionSyntax) (f : SubroutineSymbol)
    (args : List (Option BoundExpression)) :
    BoundCallExpression syn (some f) args =
      some (BoundExpression.boundCallExpression
        (BoundExpressionBase.ctor BoundNodeKind.CallExpression syn f.returnType)
        (some f) args) := rfl

theorem getElem?_behind_front {α : Type} (before after : List α) (x : α) :
    (before ++ x :: after)[before.length]? = some x := by
  induction before with
  | nil => simp
  | cons b rest ih => simpa using ih

theorem Constructed.kind_eq {n : AnyNode} (h : Constructed n) :
    n.kind = n.nodeClass.kind := by
  cases h with
  | boundVariable syn symbol node h =>
    cases symbol with
    | none => simp [BoundVariable] at h
    | some v =>
      rw [BoundVariable_eq_some] at h
      cases h
      rfl
  | boundCallExpression syn subroutine arguments node h =>
    cases subroutine with
    | none => simp [BoundCallExpression] at h
    | some f =>
      rw [BoundCallExpression_eq_some] at h
      cases h
      rfl
  | _ => rfl

theorem Constructed.expression_kind_eq {e : BoundExpression}
    (h : Constructed (AnyNode.expression e)) : e.kind = e.nodeClass.kind :=
  Constructed.kind_eq h

theorem Constructed.statement_kind_eq {s : BoundStatement}
    (h : Constructed (AnyNode.statement s)) : s.kind = s.nodeClass.kind :=
  Constructed.kind_eq h

theorem NodeClass.eq_of_kind_eq (c₁ c₂ : NodeClass) (h : c₁.kind = c₂.kind)
    (hk : c₁.kind ≠ BoundNodeKind.Unknown) : c₁ = c₂ := by
  cases c₁ <;> cases c₂ <;> simp [NodeClass.kind] at h hk ⊢

theorem NodeClass.sentinel_of_kind_unknown (c : NodeClass)
    (h : c.kind = BoundNodeKind.Unknown) :
    c = NodeClass.BadBoundExpression ∨ c = NodeClass.BadBoundStatement := by
  cases c <;> simp [NodeClass.kind] at h ⊢

theorem Memory.referencesTo_new (m : Memory) (node : NodeObject) (a : Nat) :
    Memory.referencesTo (Memory.new m node).1 a
      = Memory.referencesTo m a + node.childSlots.count (some a) := by
  simp [Memory.referencesTo, Memory.new, List.map_append, List.sum_append]

theorem Memory.unshared_new (m : Memory) (node : NodeObject) (hm : Memory.Unshared m)
    (hdistinct : ∀ a, node.childSlots.count (some a) ≤ 1)
    (hfresh : ∀ a, some a ∈ node.childSlots → Memory.referencesTo m a = 0) :
    Memory.Unshared (Memory.new m node).1 := by
  intro a
  rw [Memory.referencesTo_new]
  by_cases hmem : some a ∈ node.childSlots
  · rw [hfresh a hmem]
    simpa using hdistinct a
  · rw [List.count_eq_zero_of_not_mem hmem]
    exact hm a

/-! ## The kind tag and the bad sentinels -/

/-- C1: a node that comes out of one of the constructors of the fourteen
concrete classes, whatever the arguments, has kind `Unknown` if and only if it
is a `BadBoundExpression` or a `BadBoundStatement`. -/
theorem kind_unknown_iff_bad_sentinel (n : AnyNode) (h : Constructed n) :
    n.kind = BoundNodeKind.Unknown ↔
      (n.nodeClass = NodeClass.BadBoundExpression ∨
        n.nodeClass = NodeClass.BadBoundStatement) := by
  cases h with
  | boundVariable syn symbol node h =>
    cases symbol with
    | none => simp [BoundVariable] at h
    | some v =>
      rw [BoundVariable_eq_some] at h
      cases h
      simp [AnyNode.kind, AnyNode.toBoundNode, AnyNode.nodeClass,
        BoundExpression.toBoundNode, BoundExpression.base, BoundExpression.nodeClass,
        BoundExpressionBase.ctor]
  | boundCallExpression syn subroutine arguments node h =>
    cases subroutine with
    | none => simp [BoundCallExpression] at h
    | some f =>
      rw [BoundCallExpression_eq_some] at h
      cases h
      simp [AnyNode.kind, AnyNode.toBoundNode, AnyNode.nodeClass,
        BoundExpression.toBoundNode, BoundExpression.base, BoundExpression.nodeClass,
        BoundExpressionBase.ctor]
  | _ =>
    simp [AnyNode.kind, AnyNode.toBoundNode, AnyNode.nodeClass,
      BoundExpression.toBoundNode, BoundExpression.base, BoundExpression.nodeClass,
      BoundStatement.toBoundNode, BoundStatement.base, BoundStatement.nodeClass,
      BoundExpressionBase.ctor, BoundStatementBase.ctor,
      BadBoundExpression, BoundLiteral, BoundLiteralMove, BoundParameter,
      BoundUnaryExpression, BoundBinaryExpression, BoundAssignmentExpression,
      BoundTernaryExpression, BadBoundStatement, BoundStatementList,
      BoundReturnStatement, BoundVariableDecl, BoundConditionalStatement]

/-- Witness of C1: at the sentinel `BadBoundExpression(nullptr)`, whose kind is
`Unknown`, and at the literal `42`, whose kind is not. -/
theorem kind_unknown_iff_bad_sentinel_witness :
    (Constructed (AnyNode.expression (BadBoundExpression none)) ∧
      ((AnyNode.expression (BadBoundExpression none)).kind = BoundNodeKind.Unknown ↔
        ((AnyNode.expression (BadBoundExpression none)).nodeClass
            = NodeClass.BadBoundExpression ∨
          (AnyNode.expression (BadBoundExpression none)).nodeClass
            = NodeClass.BadBoundStatement))) ∧
    (Constructed (AnyNode.expression literal42) ∧
      ((AnyNode.expression literal42).kind = BoundNodeKind.Unknown ↔
        ((AnyNode.expression literal42).nodeClass = NodeClass.BadBoundExpression ∨
          (AnyNode.expression literal42).nodeClass = NodeClass.BadBoundStatement))) :=
  ⟨⟨Constructed.badBoundExpression none,
      kind_unknown_iff_bad_sentinel _ (Constructed.badBoundExpression none)⟩,
    ⟨Constructed.boundLiteral _ _ _,
      kind_unknown_iff_bad_sentinel _ (Constructed.boundLiteral _ _ _)⟩⟩

/-- C2: through the `BoundNode` view alone, `bad()` is true exactly when the
kind is `Unknown`, and false for each of the twelve other kinds; the same holds
for the `BoundNode` view of every expression node and of every statement
node. -/
theorem bad_iff_kind_unknown :
    (∀ n : BoundNode, n.bad = true ↔ n.kind = BoundNodeKind.Unknown) ∧
    (∀ n : BoundNode, n.bad =
      match n.kind with
      | BoundNodeKind.Unknown => true
      | BoundNodeKind.Literal => false
      | BoundNodeKind.Parameter => false
      | BoundNodeKind.Variable => false
      | BoundNodeKind.UnaryExpression => false
      | BoundNodeKind.BinaryExpression => false
      | BoundNodeKind.TernaryExpression => false
      | BoundNodeKind.AssignmentExpression => false
      | BoundNodeKind.CallExpression => false
      | BoundNodeKind.StatementList => false
      | BoundNodeKind.ReturnStatement => false
      | BoundNodeKind.VariableDeclaration => false
      | BoundNodeKind.ConditionalStatement => false) ∧
    (∀ e : BoundExpression,
      e.toBoundNode.kind = e.kind ∧
        (e.toBoundNode.bad = true ↔ e.kind = BoundNodeKind.Unknown)) ∧
    (∀ s : BoundStatement,
      s.toBoundNode.kind = s.kind ∧
        (s.toBoundNode.bad = true ↔ s.kind = BoundNodeKind.Unknown)) := by
  refine ⟨BoundNode.bad_eq_true_iff, ?_, ?_, ?_⟩
  · rintro ⟨k⟩
    cases k <;> rfl
  · intro e
    exact ⟨rfl, BoundNode.bad_eq_true_iff _⟩
  · intro s
    exact ⟨rfl, BoundNode.bad_eq_true_iff _⟩

/-! ## `BoundLiteral`: the type and the value -/

/-- C3, as stated, fails: the two literals built from the constant `42` with a
null type and with the integer type hold the same value and different types,
so for no `type_of` at all does every constructed literal have
`node.type == type_of(node.value)`. -/
theorem literal_type_matches_value_fails :
    (BoundLiteral none none (ConstantValue.integer 42)).value?
        = (BoundLiteral none (some intType) (ConstantValue.integer 42)).value? ∧
    (BoundLiteral none none (ConstantValue.integer 42)).type = none ∧
    (BoundLiteral none (some intType) (ConstantValue.integer 42)).type = some intType ∧
    ¬ ∃ typeOf : ConstantValue → Option TypeSymbol,
        ∀ (syn : Option ExpressionSyntax) (type : Option TypeSymbol) (value : ConstantValue),
          TypeMatchesValue typeOf (BoundLiteral syn type value) := by
  refine ⟨rfl, rfl, rfl, ?_⟩
  rintro ⟨typeOf, h⟩
  obtain ⟨v₁, hv₁, ht₁⟩ := h none none (ConstantValue.integer 42)
  obtain ⟨v₂, hv₂, ht₂⟩ := h none (some intType) (ConstantValue.integer 42)
  have e₁ : v₁ = ConstantValue.integer 42 := (Option.some.inj hv₁).symm
  have e₂ : v₂ = ConstantValue.integer 42 := (Option.some.inj hv₂).symm
  subst e₁ e₂
  have h₁ : typeOf (ConstantValue.integer 42) = none := ht₁.symm
  have h₂ : typeOf (ConstantValue.integer 42) = some intType := ht₂.symm
  rw [h₁] at h₂
  exact Option.noConfusion h₂

/-- C3, amended: a literal built (by either overload) from a type `t` and a
constant `v` has type `t` and value `v`; so `node.type == type_of(node.value)`
holds exactly when the caller passed `t == type_of(v)`. -/
theorem literal_type_matches_value_iff (typeOf : ConstantValue → Option TypeSymbol)
    (syn : Option ExpressionSyntax) (type : Option TypeSymbol) (value : ConstantValue) :
    ((BoundLiteral syn type value).type = type ∧
      (BoundLiteral syn type value).value? = some value ∧
      (TypeMatchesValue typeOf (BoundLiteral syn type value) ↔ type = typeOf value)) ∧
    ((BoundLiteralMove syn type value).1.type = type ∧
      (BoundLiteralMove syn type value).1.value? = some value ∧
      (TypeMatchesValue typeOf (BoundLiteralMove syn type value).1 ↔
        type = typeOf value)) := by
  have key : ∀ n : BoundExpression, n.type = type → n.value? = some value →
      (TypeMatchesValue typeOf n ↔ type = typeOf value) := by
    intro n ht hv
    constructor
    · rintro ⟨v, hv', h⟩
      rw [hv] at hv'
      cases hv'
      rw [← ht]
      exact h
    · intro h
      exact ⟨value, hv, ht.trans h⟩
  exact ⟨⟨rfl, rfl, key _ rfl rfl⟩, ⟨rfl, rfl, key _ rfl rfl⟩⟩

/-! ## `BoundCallExpression`: the type is the subroutine's return type -/

/-- C4: for every syntax, every present subroutine symbol and every argument
sequence, `BoundCallExpression` yields a node whose `subroutine` is the symbol
passed in and whose type is that stored symbol's `returnType`. -/
theorem call_type_is_return_type (syn : Option ExpressionSyntax) (f : SubroutineSymbol)
    (args : List (Option BoundExpression)) :
    ∃ node, BoundCallExpression syn (some f) args = some node ∧
      ∃ stored, node.subroutine? = some (some stored) ∧ stored = f ∧
        node.type = stored.returnType :=
  ⟨_, BoundCallExpression_eq_some syn f args, f, rfl, rfl, rfl⟩

/-! ## Presence of the type -/

/-- C5, as stated, fails: `BoundLiteral`, `BoundUnaryExpression` and
`BoundParameter` called with a null type (a symbol whose type is null) yield
nodes that are not bad and whose type is absent. -/
theorem non_bad_type_present_fails :
    ((BoundLiteral (some ⟨0⟩) none (ConstantValue.integer 42)).type = none ∧
      (BoundLiteral (some ⟨0⟩) none (ConstantValue.integer 42)).isBad = false) ∧
    ((BoundUnaryExpression (some ⟨1⟩) none (some literal42)).type = none ∧
      (BoundUnaryExpression (some ⟨1⟩) none (some literal42)).isBad = false) ∧
    ((BoundParameter (some ⟨2⟩) ⟨"p", none⟩).type = none ∧
      (BoundParameter (some ⟨2⟩) ⟨"p", none⟩).isBad = false) ∧
    ¬ ∀ (syn : Option ExpressionSyntax) (type : Option TypeSymbol)
        (operand : Option BoundExpression),
        (BoundUnaryExpression syn type operand).type ≠ none := by
  refine ⟨⟨rfl, rfl⟩, ⟨rfl, rfl⟩, ⟨rfl, rfl⟩, ?_⟩
  intro h
  exact h none none none rfl

/-- C5, amended: the type of a node built by a non-bad expression constructor
is the type passed to the constructor (literal, unary, binary, ternary,
assignment), the type of the symbol passed (parameter, variable) or the return
type of the subroutine passed (call); it is present exactly when that type is
present. -/
theorem non_bad_type_is_given_type :
    (∀ syn type value, (BoundLiteral syn type value).type = type) ∧
    (∀ syn type value, (BoundLiteralMove syn type value).1.type = type) ∧
    (∀ syn (p : ParameterSymbol), (BoundParameter syn p).type = p.type) ∧
    (∀ syn (v : VariableSymbol),
      ∃ node, BoundVariable syn (some v) = some node ∧ node.type = v.type) ∧
    (∀ syn type operand, (BoundUnaryExpression syn type operand).type = type) ∧
    (∀ syn type left right, (BoundBinaryExpression syn type left right).type = type) ∧
    (∀ syn type pred left right,
      (BoundTernaryExpression syn type pred left right).type = type) ∧
    (∀ syn type left right,
      (BoundAssignmentExpression syn type left right).type = type) ∧
    (∀ syn (f : SubroutineSymbol) args,
      ∃ node, BoundCallExpression syn (some f) args = some node ∧
        node.type = f.returnType) :=
  ⟨fun _ _ _ => rfl, fun _ _ _ => rfl, fun _ _ => rfl,
    fun syn v => ⟨_, BoundVariable_eq_some syn v, rfl⟩,
    fun _ _ _ => rfl, fun _ _ _ _ => rfl, fun _ _ _ _ _ => rfl, fun _ _ _ _ => rfl,
    fun syn f args => ⟨_, BoundCallExpression_eq_some syn f args, rfl⟩⟩

/-! ## `BadBoundExpression` -/

/-- C6: for every child pointer (null, a bad node, a valid node with or without
a type), `BadBoundExpression(child)` has an absent type, also when the child
has a type, and `bad()` is true. -/
theorem bad_expression_has_no_type (child : Option BoundExpression) :
    (BadBoundExpression child).type = none ∧
    (BadBoundExpression child).isBad = true ∧
    (∀ (c : BoundExpression) (t : TypeSymbol), child = some c → c.type = some t →
      (BadBoundExpression child).type ≠ c.type) := by
  refine ⟨rfl, rfl, ?_⟩
  intro c t _ ht h
  rw [ht] at h
  exact Option.noConfusion h

/-- Witness of C6: wrapping the literal `42`, which has the integer type. -/
theorem bad_expression_has_no_type_witness :
    (BadBoundExpression (some literal42)).type = none ∧
    (BadBoundExpression (some literal42)).isBad = true ∧
    literal42.type = some intType ∧
    (BadBoundExpression (some literal42)).type ≠ literal42.type :=
  ⟨(bad_expression_has_no_type (some literal42)).1,
    (bad_expression_has_no_type (some literal42)).2.1,
    rfl,
    (bad_expression_has_no_type (some literal42)).2.2 literal42 intType rfl rfl⟩

/-- C7: wrapping a valid expression `E` as `BadBoundExpression(E)` leaves `E`
as it was: the wrapper's `child` is `E`, and the kind, type, syntax and
children read through the wrapper are those of `E`; the child still reports
`bad() == false` while the wrapper reports `bad() == true`. -/
theorem wrapping_leaves_child_unchanged (E : BoundExpression) (h : E.isBad = false) :
    ∃ c, (BadBoundExpression (some E)).child? = some (some c) ∧
      c = E ∧ c.kind = E.kind ∧ c.type = E.type ∧ c.syntaxRef = E.syntaxRef ∧
      c.operand? = E.operand? ∧ c.pred? = E.pred? ∧ c.left? = E.left? ∧
      c.right? = E.right? ∧ c.arguments? = E.arguments? ∧ c.child? = E.child? ∧
      c.isBad = false ∧ (BadBoundExpression (some E)).isBad = true :=
  ⟨E, rfl, rfl, rfl, rfl, rfl, rfl, rfl, rfl, rfl, rfl, rfl, h, rfl⟩

/-- Witness of C7: wrapping the literal `42`. -/
theorem wrapping_leaves_child_unchanged_witness :
    literal42.isBad = false ∧
    ∃ c, (BadBoundExpression (some literal42)).child? = some (some c) ∧
      c = literal42 ∧ c.kind = literal42.kind ∧ c.type = literal42.type ∧
      c.syntaxRef = literal42.syntaxRef ∧
      c.operand? = literal42.operand? ∧ c.pred? = literal42.pred? ∧
      c.left? = literal42.left? ∧ c.right? = literal42.right? ∧
      c.arguments? = literal42.arguments? ∧ c.child? = literal42.child? ∧
      c.isBad = false ∧ (BadBoundExpression (some literal42)).isBad = true :=
  ⟨rfl, wrapping_leaves_child_unchanged literal42 rfl⟩

/-! ## `BoundConditionalStatement`: the optional else branch -/

/-- C8: a `BoundConditionalStatement` built with an absent else branch reads
back an absent `ifFalse` (not an empty statement list, nor any other node), one
built with a present else branch `s` reads back exactly `s`, and in both cases
`cond` and `ifTrue` read back as passed in. -/
theorem conditional_else_round_trips (syn : Option StatementSyntax)
    (cond : Option BoundExpression) (ifTrue : Option BoundStatement) :
    ((BoundConditionalStatement syn cond ifTrue none).ifFalse? = some none ∧
      (∀ synthesized : BoundStatement,
        (BoundConditionalStatement syn cond ifTrue none).ifFalse?
          ≠ some (some synthesized)) ∧
      (BoundConditionalStatement syn cond ifTrue none).cond? = some cond ∧
      (BoundConditionalStatement syn cond ifTrue none).ifTrue? = some ifTrue) ∧
    (∀ s : BoundStatement,
      (BoundConditionalStatement syn cond ifTrue (some s)).ifFalse? = some (some s) ∧
      (BoundConditionalStatement syn cond ifTrue (some s)).cond? = some cond ∧
      (BoundConditionalStatement syn cond ifTrue (some s)).ifTrue? = some ifTrue) := by
  refine ⟨⟨rfl, ?_, rfl, rfl⟩, fun s => ⟨rfl, rfl, rfl⟩⟩
  intro synthesized h
  have h' : (none : Option BoundStatement) = some synthesized := Option.some.inj h
  exact Option.noConfusion h'

/-! ## `BoundLiteral`: the two overloads -/

/-- C9: from the same syntax, type and constant, the copying overload and the
moving overload of the `BoundLiteral` constructor yield nodes with equal kind,
syntax, type and value (they are the same node). -/
theorem literal_copy_move_agree (syn : Option ExpressionSyntax)
    (type : Option TypeSymbol) (value : ConstantValue) :
    (BoundLiteral syn type value).kind = (BoundLiteralMove syn type value).1.kind ∧
    (BoundLiteral syn type value).syntaxRef
      = (BoundLiteralMove syn type value).1.syntaxRef ∧
    (BoundLiteral syn type value).type = (BoundLiteralMove syn type value).1.type ∧
    (BoundLiteral syn type value).value? = (BoundLiteralMove syn type value).1.value? ∧
    (BoundLiteral syn type value).value? = some value ∧
    BoundLiteral syn type value = (BoundLiteralMove syn type value).1 :=
  ⟨rfl, rfl, rfl, rfl, rfl, rfl⟩

/-- C10: for every syntax, type and constant, the constructed `BoundLiteral`
has kind `Literal`, the type given, the value given, and `bad()` false; so the
literal `42` of the integer type has kind `Literal`, the integer type and is
not bad. -/
theorem literal_fields (syn : Option ExpressionSyntax) (type : Option TypeSymbol)
    (value : ConstantValue) :
    ((BoundLiteral syn type value).kind = BoundNodeKind.Literal ∧
      (BoundLiteral syn type value).type = type ∧
      (BoundLiteral syn type value).value? = some value ∧
      (BoundLiteral syn type value).isBad = false) ∧
    (literal42.kind = BoundNodeKind.Literal ∧
      literal42.type = some intType ∧
      literal42.value? = some (ConstantValue.integer 42) ∧
      literal42.isBad = false) :=
  ⟨⟨rfl, rfl, rfl, rfl⟩, ⟨rfl, rfl, rfl, rfl⟩⟩

/-! ## `BoundParameter` and `BoundVariable`: the type comes from the symbol -/

/-- C11: `BoundParameter(syntax, p)` has type `p.type` and symbol `p`;
`BoundVariable(syntax, v)` with a present `v` yields a node with type `v.type`
and symbol `v`. The syntax has no part in the type: two nodes built from the
same symbol and different syntax have the same type. -/
theorem symbol_reference_type_from_symbol :
    (∀ (syn : Option ExpressionSyntax) (p : ParameterSymbol),
      (BoundParameter syn p).type = p.type ∧
      (BoundParameter syn p).parameterSymbol? = some p ∧
      (BoundParameter syn p).kind = BoundNodeKind.Parameter) ∧
    (∀ (syn : Option ExpressionSyntax) (v : VariableSymbol),
      ∃ node, BoundVariable syn (some v) = some node ∧
        node.type = v.type ∧
        node.variableSymbol? = some (some v) ∧
        node.kind = BoundNodeKind.Variable) ∧
    (∀ (syn₁ syn₂ : Option ExpressionSyntax) (p : ParameterSymbol),
      (BoundParameter syn₁ p).type = (BoundParameter syn₂ p).type) ∧
    (∀ (syn₁ syn₂ : Option ExpressionSyntax) (v : VariableSymbol),
      (BoundVariable syn₁ (some v)).map BoundExpression.type
        = (BoundVariable syn₂ (some v)).map BoundExpression.type) :=
  ⟨fun _ _ => ⟨rfl, rfl, rfl⟩,
    fun syn v => ⟨_, BoundVariable_eq_some syn v, rfl, rfl, rfl⟩,
    fun _ _ _ => rfl,
    fun _ _ _ => rfl⟩

/-- C13: `BoundStatementList(L)` stores exactly `L`, the empty sequence
included: same length and the same statement at every index. So `bad()` at
index `i` of the stored sequence is `bad()` at index `i` of `L`, and the
statement stored behind any prefix is the one passed there, whatever the other
elements are. The list node has kind `StatementList` and is not bad. In the
three-statement list whose second element is a `BadBoundStatement`, index 1 is
bad and indices 0 and 2 are not. -/
theorem statement_list_stores_sequence :
    (∀ L : List (Option BoundStatement),
      ∃ stored, (BoundStatementList L).list? = some stored ∧
        stored = L ∧ stored.length = L.length ∧
        (∀ i : Nat, stored[i]? = L[i]?) ∧
        (∀ i : Nat, badAt? stored i = badAt? L i) ∧
        (BoundStatementList L).kind = BoundNodeKind.StatementList ∧
        (BoundStatementList L).isBad = false) ∧
    (BoundStatementList []).list? = some [] ∧
    (∀ (before after : List (Option BoundStatement)) (s : BoundStatement),
      ∃ stored, (BoundStatementList (before ++ some s :: after)).list? = some stored ∧
        stored[before.length]? = some (some s) ∧
        badAt? stored before.length = some s.isBad) ∧
    (∃ stored, (BoundStatementList threeStatements).list? = some stored ∧
      stored.length = 3 ∧
      badAt? stored 0 = some false ∧
      badAt? stored 1 = some true ∧
      badAt? stored 2 = some false ∧
      (BoundStatementList threeStatements).isBad = false) := by
  refine ⟨fun L => ⟨L, rfl, rfl, rfl, fun _ => rfl, fun _ => rfl, rfl, rfl⟩, rfl, ?_,
    ⟨threeStatements, rfl, rfl, rfl, rfl, rfl, rfl⟩⟩
  intro before after s
  refine ⟨_, rfl, getElem?_behind_front before after (some s), ?_⟩
  unfold badAt?
  rw [getElem?_behind_front before after (some s)]
  rfl

/-! ## The kind tag and the class of a node -/

/-- C14, as stated, fails: `BadBoundExpression(nullptr)` and
`BadBoundStatement(nullptr)` come out of two of the fourteen constructors, have
the same kind, `Unknown`, and are different concrete variants. -/
theorem kind_identifies_variant_fails :
    Constructed (AnyNode.expression (BadBoundExpression none)) ∧
    Constructed (AnyNode.statement (BadBoundStatement none)) ∧
    (AnyNode.expression (BadBoundExpression none)).kind
      = (AnyNode.statement (BadBoundStatement none)).kind ∧
    (AnyNode.expression (BadBoundExpression none)).nodeClass
      ≠ (AnyNode.statement (BadBoundStatement none)).nodeClass :=
  ⟨Constructed.badBoundExpression none, Constructed.badBoundStatement none, rfl,
    by decide⟩

/-- C14, amended: two nodes that come out of the fourteen constructors and have
the same kind are the same concrete variant when that kind is not `Unknown`;
when it is `Unknown`, each of them is a `BadBoundExpression` or a
`BadBoundStatement`. -/
theorem kind_identifies_variant_unless_unknown (n₁ n₂ : AnyNode)
    (h₁ : Constructed n₁) (h₂ : Constructed n₂) (h : n₁.kind = n₂.kind) :
    (n₁.kind ≠ BoundNodeKind.Unknown → n₁.nodeClass = n₂.nodeClass) ∧
    (n₁.kind = BoundNodeKind.Unknown →
      (n₁.nodeClass = NodeClass.BadBoundExpression ∨
        n₁.nodeClass = NodeClass.BadBoundStatement) ∧
      (n₂.nodeClass = NodeClass.BadBoundExpression ∨
        n₂.nodeClass = NodeClass.BadBoundStatement)) := by
  rw [Constructed.kind_eq h₁] at h ⊢
  rw [Constructed.kind_eq h₂] at h
  refine ⟨fun hk => NodeClass.eq_of_kind_eq _ _ h hk, fun hk => ⟨?_, ?_⟩⟩
  · exact NodeClass.sentinel_of_kind_unknown _ hk
  · exact NodeClass.sentinel_of_kind_unknown _ (h ▸ hk)

/-- Witness of C14 amended: the literal `42` and a second literal have the same
kind, `Literal`, and the same class. -/
theorem kind_identifies_variant_unless_unknown_witness :
    Constructed (AnyNode.expression literal42) ∧
    Constructed (AnyNode.expression (BoundLiteral none none ConstantValue.null)) ∧
    (AnyNode.expression literal42).kind
      = (AnyNode.expression (BoundLiteral none none ConstantValue.null)).kind ∧
    (AnyNode.expression literal42).kind ≠ BoundNodeKind.Unknown ∧
    (AnyNode.expression literal42).nodeClass
      = (AnyNode.expression (BoundLiteral none none ConstantValue.null)).nodeClass :=
  ⟨Constructed.boundLiteral _ _ _, Constructed.boundLiteral _ _ _, rfl, by decide,
    (kind_identifies_variant_unless_unknown (AnyNode.expression literal42)
      (AnyNode.expression (BoundLiteral none none ConstantValue.null))
      (Constructed.boundLiteral _ _ _) (Constructed.boundLiteral _ _ _) rfl).1
      (by decide)⟩

/-! ## The originating syntax -/

/-- C15, as stated, fails: `BoundLiteral`, `BoundParameter` and
`BoundReturnStatement` called with a null syntax yield nodes whose syntax is
absent. -/
theorem syntax_present_fails :
    (BoundLiteral none (some intType) (ConstantValue.integer 42)).syntaxRef = none ∧
    (BoundLiteral none (some intType) (ConstantValue.integer 42)).kind
      = BoundNodeKind.Literal ∧
    (BoundParameter none ⟨"p", some intType⟩).syntaxRef = none ∧
    (BoundReturnStatement none (some literal42)).syntaxRef = none ∧
    (BoundReturnStatement none (some literal42)).kind = BoundNodeKind.ReturnStatement ∧
    ¬ ∀ (syn : Option ExpressionSyntax) (type : Option TypeSymbol) (value : ConstantValue),
        (BoundLiteral syn type value).syntaxRef ≠ none := by
  refine ⟨rfl, rfl, rfl, rfl, rfl, ?_⟩
  intro h
  exact h none none ConstantValue.null rfl

/-- C15, amended: the syntax of a node built by `BoundLiteral`,
`BoundParameter`, `BoundVariable`, the unary, binary, ternary, assignment and
call expressions, `BoundReturnStatement` and `BoundConditionalStatement` is
exactly the syntax pointer passed to the constructor; it is present exactly
when that pointer is. -/
theorem syntax_is_given_syntax :
    (∀ syn type value, (BoundLiteral syn type value).syntaxRef = syn) ∧
    (∀ syn type value, (BoundLiteralMove syn type value).1.syntaxRef = syn) ∧
    (∀ syn (p : ParameterSymbol), (BoundParameter syn p).syntaxRef = syn) ∧
    (∀ syn (v : VariableSymbol),
      ∃ node, BoundVariable syn (some v) = some node ∧ node.syntaxRef = syn) ∧
    (∀ syn type operand, (BoundUnaryExpression syn type operand).syntaxRef = syn) ∧
    (∀ syn type left right,
      (BoundBinaryExpression syn type left right).syntaxRef = syn) ∧
    (∀ syn type pred left right,
      (BoundTernaryExpression syn type pred left right).syntaxRef = syn) ∧
    (∀ syn type left right,
      (BoundAssignmentExpression syn type left right).syntaxRef = syn) ∧
    (∀ syn (f : SubroutineSymbol) args,
      ∃ node, BoundCallExpression syn (some f) args = some node ∧
        node.syntaxRef = syn) ∧
    (∀ syn expr, (BoundReturnStatement syn expr).syntaxRef = syn) ∧
    (∀ syn cond ifTrue ifFalse,
      (BoundConditionalStatement syn cond ifTrue ifFalse).syntaxRef = syn) :=
  ⟨fun _ _ _ => rfl, fun _ _ _ => rfl, fun _ _ => rfl,
    fun syn v => ⟨_, BoundVariable_eq_some syn v, rfl⟩,
    fun _ _ _ => rfl, fun _ _ _ _ => rfl, fun _ _ _ _ _ => rfl, fun _ _ _ _ => rfl,
    fun syn f args => ⟨_, BoundCallExpression_eq_some syn f args, rfl⟩,
    fun _ _ => rfl, fun _ _ _ _ => rfl⟩

/-! ## The composite constructors validate nothing -/

/-- C17: for every syntax, type and operand pointers, each of
`BoundUnaryExpression`, `BoundBinaryExpression`, `BoundTernaryExpression` and
`BoundAssignmentExpression` yields a node of its own kind whose type is the
type given and whose operand fields are the operands given, each in its
position. -/
theorem composite_constructors_store_operands :
    (∀ syn type operand,
      (BoundUnaryExpression syn type operand).kind = BoundNodeKind.UnaryExpression ∧
      (BoundUnaryExpression syn type operand).type = type ∧
      (BoundUnaryExpression syn type operand).operand? = some operand) ∧
    (∀ syn type left right,
      (BoundBinaryExpression syn type left right).kind
        = BoundNodeKind.BinaryExpression ∧
      (BoundBinaryExpression syn type left right).type = type ∧
      (BoundBinaryExpression syn type left right).left? = some left ∧
      (BoundBinaryExpression syn type left right).right? = some right) ∧
    (∀ syn type pred left right,
      (BoundTernaryExpression syn type pred left right).kind
        = BoundNodeKind.TernaryExpression ∧
      (BoundTernaryExpression syn type pred left right).type = type ∧
      (BoundTernaryExpression syn type pred left right).pred? = some pred ∧
      (BoundTernaryExpression syn type pred left right).left? = some left ∧
      (BoundTernaryExpression syn type pred left right).right? = some right) ∧
    (∀ syn type left right,
      (BoundAssignmentExpression syn type left right).kind
        = BoundNodeKind.AssignmentExpression ∧
      (BoundAssignmentExpression syn type left right).type = type ∧
      (BoundAssignmentExpression syn type left right).left? = some left ∧
      (BoundAssignmentExpression syn type left right).right? = some right) :=
  ⟨fun _ _ _ => ⟨rfl, rfl, rfl⟩, fun _ _ _ _ => ⟨rfl, rfl, rfl, rfl⟩,
    fun _ _ _ _ _ => ⟨rfl, rfl, rfl, rfl, rfl⟩, fun _ _ _ _ => ⟨rfl, rfl, rfl, rfl⟩⟩

/-- C18: a composite node built by a constructor other than the two bad ones
has the kind of its class and `bad()` false whatever its children are, bad ones
included: a unary expression over a bad operand, a statement list holding a bad
statement and a conditional with a bad condition and bad branches are not
bad. -/
theorem badness_not_propagated :
    (∀ syn type operand,
      (BoundUnaryExpression syn type operand).kind = BoundNodeKind.UnaryExpression ∧
      (BoundUnaryExpression syn type operand).isBad = false) ∧
    (∀ syn type left right,
      (BoundBinaryExpression syn type left right).kind
        = BoundNodeKind.BinaryExpression ∧
      (BoundBinaryExpression syn type left right).isBad = false) ∧
    (∀ syn type pred left right,
      (BoundTernaryExpression syn type pred left right).kind
        = BoundNodeKind.TernaryExpression ∧
      (BoundTernaryExpression syn type pred left right).isBad = false) ∧
    (∀ syn type left right,
      (BoundAssignmentExpression syn type left right).kind
        = BoundNodeKind.AssignmentExpression ∧
      (BoundAssignmentExpression syn type left right).isBad = false) ∧
    (∀ syn (f : SubroutineSymbol) args,
      ∃ node, BoundCallExpression syn (some f) args = some node ∧
        node.kind = BoundNodeKind.CallExpression ∧ node.isBad = false) ∧
    (∀ list,
      (BoundStatementList list).kind = BoundNodeKind.StatementList ∧
      (BoundStatementList list).isBad = false) ∧
    (∀ syn expr,
      (BoundReturnStatement syn expr).kind = BoundNodeKind.ReturnStatement ∧
      (BoundReturnStatement syn expr).isBad = false) ∧
    (∀ syn cond ifTrue ifFalse,
      (BoundConditionalStatement syn cond ifTrue ifFalse).kind
        = BoundNodeKind.ConditionalStatement ∧
      (BoundConditionalStatement syn cond ifTrue ifFalse).isBad = false) ∧
    ((BadBoundExpression none).isBad = true ∧
      (BoundUnaryExpression none none (some (BadBoundExpression none))).isBad = false ∧
      (BoundBinaryExpression none none (some literal42)
        (some (BadBoundExpression none))).isBad = false) ∧
    ((BadBoundStatement none).isBad = true ∧
      (BoundStatementList [some (BadBoundStatement none)]).isBad = false ∧
      (BoundReturnStatement none (some (BadBoundExpression none))).isBad = false ∧
      (BoundConditionalStatement none (some (BadBoundExpression none))
        (some (BadBoundStatement none)) (some (BadBoundStatement none))).isBad
        = false) :=
  ⟨fun _ _ _ => ⟨rfl, rfl⟩, fun _ _ _ _ => ⟨rfl, rfl⟩, fun _ _ _ _ _ => ⟨rfl, rfl⟩,
    fun _ _ _ _ => ⟨rfl, rfl⟩,
    fun syn f args => ⟨_, BoundCallExpression_eq_some syn f args, rfl, rfl⟩,
    fun _ => ⟨rfl, rfl⟩, fun _ _ => ⟨rfl, rfl⟩, fun _ _ _ _ => ⟨rfl, rfl⟩,
    ⟨rfl, rfl, rfl⟩, ⟨rfl, rfl, rfl, rfl⟩⟩

/-- C19: for every syntax, every present subroutine symbol and every argument
sequence `A`, whatever its length, `BoundCallExpression` yields a node of kind
`CallExpression`, not bad, whose arguments are `A`: same length, same pointer
at every index. So it does for one argument passed to the two-parameter
subroutine `f`. -/
theorem call_stores_arguments_unchecked :
    (∀ (syn : Option ExpressionSyntax) (f : SubroutineSymbol)
        (A : List (Option BoundExpression)),
      ∃ node, BoundCallExpression syn (some f) A = some node ∧
        node.kind = BoundNodeKind.CallExpression ∧
        node.isBad = false ∧
        ∃ stored, node.arguments? = some stored ∧ stored = A ∧
          stored.length = A.length ∧ ∀ i : Nat, stored[i]? = A[i]?) ∧
    (subroutineF.parameters.length = 2 ∧
      ∃ node, BoundCallExpression (some ⟨7⟩) (some subroutineF) [some literal42]
          = some node ∧
        node.kind = BoundNodeKind.CallExpression ∧
        node.isBad = false ∧
        node.arguments? = some [some literal42] ∧
        node.arguments?.map List.length = some 1) :=
  ⟨fun syn f A => ⟨_, BoundCallExpression_eq_some syn f A, rfl, rfl, A, rfl, rfl, rfl,
      fun _ => rfl⟩,
    rfl, _, BoundCallExpression_eq_some _ _ _, rfl, rfl, rfl, rfl⟩

/-! ## The kind tag and the branch -/

/-- C20: a node that comes out of an expression constructor has one of the nine
kinds `Unknown`, `Literal`, `Parameter`, `Variable`, `UnaryExpression`,
`BinaryExpression`, `TernaryExpression`, `AssignmentExpression`,
`CallExpression`; one that comes out of a statement constructor has one of the
five kinds `Unknown`, `StatementList`, `ReturnStatement`,
`VariableDeclaration`, `ConditionalStatement`; within a branch, nodes of
distinct classes have distinct kinds; a kind reported by a node of each branch
is `Unknown`, and `Unknown` is reported in both. -/
theorem kind_determines_branch :
    (∀ e : BoundExpression, Constructed (AnyNode.expression e) →
      e.kind ∈ [BoundNodeKind.Unknown, BoundNodeKind.Literal, BoundNodeKind.Parameter,
        BoundNodeKind.Variable, BoundNodeKind.UnaryExpression,
        BoundNodeKind.BinaryExpression, BoundNodeKind.TernaryExpression,
        BoundNodeKind.AssignmentExpression, BoundNodeKind.CallExpression]) ∧
    (∀ s : BoundStatement, Constructed (AnyNode.statement s) →
      s.kind ∈ [BoundNodeKind.Unknown, BoundNodeKind.StatementList,
        BoundNodeKind.ReturnStatement, BoundNodeKind.VariableDeclaration,
        BoundNodeKind.ConditionalStatement]) ∧
    (∀ e₁ e₂ : BoundExpression, Constructed (AnyNode.expression e₁) →
      Constructed (AnyNode.expression e₂) → e₁.nodeClass ≠ e₂.nodeClass →
      e₁.kind ≠ e₂.kind) ∧
    (∀ s₁ s₂ : BoundStatement, Constructed (AnyNode.statement s₁) →
      Constructed (AnyNode.statement s₂) → s₁.nodeClass ≠ s₂.nodeClass →
      s₁.kind ≠ s₂.kind) ∧
    (∀ (e : BoundExpression) (s : BoundStatement), Constructed (AnyNode.expression e) →
      Constructed (AnyNode.statement s) → e.kind = s.kind →
      e.kind = BoundNodeKind.Unknown ∧ s.kind = BoundNodeKind.Unknown) ∧
    ((BadBoundExpression none).kind = BoundNodeKind.Unknown ∧
      (BadBoundStatement none).kind = BoundNodeKind.Unknown) := by
  refine ⟨?_, ?_, ?_, ?_, ?_, rfl, rfl⟩
  · intro e h
    rw [Constructed.expression_kind_eq h]
    cases e <;> simp [BoundExpression.nodeClass, NodeClass.kind]
  · intro s h
    rw [Constructed.statement_kind_eq h]
    cases s <;> simp [BoundStatement.nodeClass, NodeClass.kind]
  · intro e₁ e₂ h₁ h₂ hne hk
    rw [Constructed.expression_kind_eq h₁, Constructed.expression_kind_eq h₂] at hk
    revert hne hk
    cases e₁ <;> cases e₂ <;> simp [BoundExpression.nodeClass, NodeClass.kind]
  · intro s₁ s₂ h₁ h₂ hne hk
    rw [Constructed.statement_kind_eq h₁, Constructed.statement_kind_eq h₂] at hk
    revert hne hk
    cases s₁ <;> cases s₂ <;> simp [BoundStatement.nodeClass, NodeClass.kind]
  · intro e s h₁ h₂ hk
    rw [Constructed.expression_kind_eq h₁, Constructed.statement_kind_eq h₂] at hk ⊢
    revert hk
    cases e <;> cases s <;>
      simp [BoundExpression.nodeClass, BoundStatement.nodeClass, NodeClass.kind]

/-- Witness of C20: the literal `42` and `BadBoundExpression(nullptr)` among
the expressions, `BoundVariableDecl(x)` and `BadBoundStatement(nullptr)` among
the statements. -/
theorem kind_determines_branch_witness :
    (Constructed (AnyNode.expression literal42) ∧
      literal42.kind ∈ [BoundNodeKind.Unknown, BoundNodeKind.Literal,
        BoundNodeKind.Parameter, BoundNodeKind.Variable, BoundNodeKind.UnaryExpression,
        BoundNodeKind.BinaryExpression, BoundNodeKind.TernaryExpression,
        BoundNodeKind.AssignmentExpression, BoundNodeKind.CallExpression]) ∧
    (Constructed (AnyNode.statement (BoundVariableDecl (some variableX))) ∧
      (BoundVariableDecl (some variableX)).kind ∈ [BoundNodeKind.Unknown,
        BoundNodeKind.StatementList, BoundNodeKind.ReturnStatement,
        BoundNodeKind.VariableDeclaration, BoundNodeKind.ConditionalStatement]) ∧
    (Constructed (AnyNode.expression (BadBoundExpression none)) ∧
      literal42.nodeClass ≠ (BadBoundExpression none).nodeClass ∧
      literal42.kind ≠ (BadBoundExpression none).kind) ∧
    (Constructed (AnyNode.statement (BadBoundStatement none)) ∧
      (BoundVariableDecl (some variableX)).nodeClass
        ≠ (BadBoundStatement none).nodeClass ∧
      (BoundVariableDecl (some variableX)).kind ≠ (BadBoundStatement none).kind) ∧
    ((BadBoundExpression none).kind = (BadBoundStatement none).kind ∧
      (BadBoundExpression none).kind = BoundNodeKind.Unknown ∧
      (BadBoundStatement none).kind = BoundNodeKind.Unknown) :=
  ⟨⟨Constructed.boundLiteral _ _ _,
      kind_determines_branch.1 literal42 (Constructed.boundLiteral _ _ _)⟩,
    ⟨Constructed.boundVariableDecl _,
      kind_determines_branch.2.1 _ (Constructed.boundVariableDecl _)⟩,
    ⟨Constructed.badBoundExpression none, by decide,
      kind_determines_branch.2.2.1 literal42 (BadBoundExpression none)
        (Constructed.boundLiteral _ _ _) (Constructed.badBoundExpression none)
        (by decide)⟩,
    ⟨Constructed.badBoundStatement none, by decide,
      kind_determines_branch.2.2.2.1 (BoundVariableDecl (some variableX))
        (BadBoundStatement none) (Constructed.boundVariableDecl _)
        (Constructed.badBoundStatement none) (by decide)⟩,
    ⟨rfl,
      kind_determines_branch.2.2.2.2.1 (BadBoundExpression none) (BadBoundStatement none)
        (Constructed.badBoundExpression none) (Constructed.badBoundStatement none) rfl⟩⟩

/-! ## Sharing of children -/

/-- C16, as stated, fails: `BoundBinaryExpression(syntax, type, e, e)` is
accepted and its `left` and `right` both hold the address of `e`, and two
`BoundUnaryExpression`s over the same `e` are accepted; in both trees the
literal at address 0 fills two child slots. -/
theorem children_never_shared_fails :
    sameOperandTwice
      = [InMemory.BoundLiteral (some ⟨0⟩) (some intType) (ConstantValue.integer 42),
         InMemory.BoundBinaryExpression (some ⟨1⟩) (some intType) (some 0) (some 0)] ∧
    (InMemory.BoundBinaryExpression (some ⟨1⟩) (some intType) (some 0) (some 0)).childSlots
      = [some 0, some 0] ∧
    Memory.referencesTo sameOperandTwice 0 = 2 ∧
    ¬ Memory.Unshared sameOperandTwice ∧
    Memory.referencesTo sameOperandOfTwoParents 0 = 2 ∧
    ¬ Memory.Unshared sameOperandOfTwoParents := by
  refine ⟨rfl, rfl, by decide, ?_, by decide, ?_⟩
  · intro h
    exact absurd (h 0) (by decide)
  · intro h
    exact absurd (h 0) (by decide)

/-- C16, amended: the constructors store the child pointers they are given and
check nothing. A newly built node adds, to the number of child slots holding an
address, the number of its own child slots that were given that address; so no
child is shared after a construction when none was before and the pointers
given are pairwise distinct (apart from null) and point to nodes that are
nobody's child yet. -/
theorem children_shared_only_by_caller :
    (∀ (m : Memory) (node : NodeObject) (a : Nat),
      Memory.referencesTo (Memory.new m node).1 a
        = Memory.referencesTo m a + node.childSlots.count (some a)) ∧
    (∀ (m : Memory) (node : NodeObject), Memory.Unshared m →
      (∀ a, node.childSlots.count (some a) ≤ 1) →
      (∀ a, some a ∈ node.childSlots → Memory.referencesTo m a = 0) →
      Memory.Unshared (Memory.new m node).1) ∧
    ((∀ child, (InMemory.BadBoundExpression child).childSlots = [child]) ∧
      (∀ syn type operand,
        (InMemory.BoundUnaryExpression syn type operand).childSlots = [operand]) ∧
      (∀ syn type left right,
        (InMemory.BoundBinaryExpression syn type left right).childSlots
          = [left, right]) ∧
      (∀ syn type left right,
        (InMemory.BoundAssignmentExpression syn type left right).childSlots
          = [left, right]) ∧
      (∀ syn type pred left right,
        (InMemory.BoundTernaryExpression syn type pred left right).childSlots
          = [pred, left, right]) ∧
      (∀ syn (f : SubroutineSymbol) arguments,
        (InMemory.BoundCallExpression syn (some f) arguments).map NodeObject.childSlots
          = some arguments) ∧
      (∀ child, (InMemory.BadBoundStatement child).childSlots = [child]) ∧
      (∀ list, (InMemory.BoundStatementList list).childSlots = list) ∧
      (∀ syn expr, (InMemory.BoundReturnStatement syn expr).childSlots = [expr]) ∧
      (∀ syn cond ifTrue ifFalse,
        (InMemory.BoundConditionalStatement syn cond ifTrue ifFalse).childSlots
          = [cond, ifTrue, ifFalse])) :=
  ⟨Memory.referencesTo_new, Memory.unshared_new,
    fun _ => rfl, fun _ _ _ => rfl, fun _ _ _ _ => rfl, fun _ _ _ _ => rfl,
    fun _ _ _ _ _ => rfl, fun _ _ _ => rfl, fun _ => rfl, fun _ => rfl,
    fun _ _ => rfl, fun _ _ _ _ => rfl⟩

/-- Witness of C16 amended: a unary expression over the literal at address 0,
which is nobody's child yet, leaves the memory without sharing. -/
theorem children_shared_only_by_caller_witness :
    Memory.Unshared literalAlone ∧
    (∀ a, (InMemory.BoundUnaryExpression (some ⟨1⟩) (some intType)
      (some 0)).childSlots.count (some a) ≤ 1) ∧
    (∀ a, some a ∈ (InMemory.BoundUnaryExpression (some ⟨1⟩) (some intType)
      (some 0)).childSlots → Memory.referencesTo literalAlone a = 0) ∧
    Memory.Unshared (Memory.new literalAlone
      (InMemory.BoundUnaryExpression (some ⟨1⟩) (some intType) (some 0))).1 := by
  have h₁ : Memory.Unshared literalAlone := by
    intro a
    simp [literalAlone, Memory.new, Memory.referencesTo, InMemory.BoundLiteral,
      NodeObject.childSlots]
  have h₂ : ∀ a, (InMemory.BoundUnaryExpression (some ⟨1⟩) (some intType)
      (some 0)).childSlots.count (some a) ≤ 1 := by
    intro a
    simp only [InMemory.BoundUnaryExpression, NodeObject.childSlots]
    exact (List.count_le_length _ _).trans (by simp)
  have h₃ : ∀ a, some a ∈ (InMemory.BoundUnaryExpression (some ⟨1⟩) (some intType)
      (some 0)).childSlots → Memory.referencesTo literalAlone a = 0 := by
    intro a _
    simp [literalAlone, Memory.new, Memory.referencesTo, InMemory.BoundLiteral,
      NodeObject.childSlots]
  exact ⟨h₁, h₂, h₃, children_shared_only_by_caller.2.1 _ _ h₁ h₂ h₃⟩

end slang
